import Mathlib

/-!
Verification of the cogman-gate control core against its specification.

Shallow embedding of the admission/trace/router core:
* `perception/trajectory_builder.py` — `Trace`, `TrajectoryBuilder.create_trace`,
  `TraceManager.transition_trace`;
* `runtime/gatecore_adapter.py` — `GateCoreAdapter.admit_with_trace`;
* `runtime/main_loop.py` — `RuntimeLoop._phase_trajectory_admission`,
  `RuntimeLoop._execute_cycle`, the `run()` containment loop;
* `runtime/wm_controller.py` — `WMController._gate_control`,
  `_context_modulation`, `_navigation_decision`, `process`;
* `runtime/error_handler.py` — `RuntimeErrorHandler.handle_error`;
* `gate/gatecore.py` — `GateCore.evaluate_safety`.

Python floats are modelled as rationals (ℚ); every claim at stake is a
threshold comparison or an exact scaling, none depends on binary rounding.
Calls to `time.time()` and `uuid.uuid4()` are modelled by explicit
parameters (`now`, `freshId`).  Python exceptions are modelled by
`Except String`.
-/

/-- Lookup in an insertion-ordered association list modelling a Python
dictionary: the value at the first matching key, or `none` when absent. -/
def pyGet? {α : Type} : List (String × α) → String → Option α
  | [], _ => none
  | p :: rest, k => if p.1 = k then some p.2 else pyGet? rest k

/-- Python `dict.get(k, default)`. -/
def pyGetD {α : Type} (d : List (String × α)) (k : String) (dflt : α) : α :=
  (pyGet? d k).getD dflt

/-- Python `k in dict`. -/
def pyHasKey {α : Type} : List (String × α) → String → Bool
  | [], _ => false
  | p :: rest, k => if p.1 = k then true else pyHasKey rest k

/-- Python `dict[k] = v`: overwrite in place when the key exists (keeping its
position), otherwise append the new pair at the end. -/
def pySet {α : Type} (d : List (String × α)) (k : String) (v : α) :
    List (String × α) :=
  if pyHasKey d k then
    d.map (fun p => if p.1 = k then (k, v) else p)
  else
    d ++ [(k, v)]

/-- Python `dict.update(other)`: fold `pySet` over the entries of `other`. -/
def pyUpdate {α : Type} (d upd : List (String × α)) : List (String × α) :=
  upd.foldl (fun acc kv => pySet acc kv.1 kv.2) d

/-- A value stored in a trace's `origin`/`context` dictionaries and in
lifecycle-log entries: a string, a number, a nested metrics dictionary
(`Dict[str, float]`), or Python `None`. -/
inductive LogVal : Type
  | s (v : String)
  | n (v : ℚ)
  | metrics (m : List (String × ℚ))
  | pynone
deriving DecidableEq, Repr

/-- A Python dictionary with string keys and `LogVal` values. -/
abbrev PyDict : Type := List (String × LogVal)

/-- Trace lifecycle state (`trajectory_builder.py`, the `Literal` of
`Trace.state`). -/
inductive TraceState : Type
  | CREATED
  | ACTIVE
  | BLOCKED
  | COMPLETED
  | INVALID
  | ARCHIVED
deriving DecidableEq, Repr

/-- `Trace` (frozen dataclass, `trajectory_builder.py`). -/
structure Trace : Type where
  trace_id : String
  state : TraceState
  created_at : ℚ
  closed_at : Option ℚ
  origin : PyDict
  context : PyDict
  lifecycle_log : List PyDict
deriving DecidableEq, Repr

/-- `TrajectoryBuilder.create_trace(origin, context)`: fresh trace in state
CREATED with a one-entry lifecycle log.  `trace_id` stands for the
`uuid.uuid4()` call and `now` for `time.time()`. -/
def createTrace (trace_id : String) (now : ℚ) (origin context : PyDict) :
    Trace :=
  { trace_id := trace_id
    state := TraceState.CREATED
    created_at := now
    closed_at := none
    origin := origin
    context := context
    lifecycle_log :=
      [[("event", LogVal.s "TRACE_CREATED"),
        ("trace_id", LogVal.s trace_id),
        ("source", pyGetD origin "source_id" (LogVal.s "unknown")),
        ("modality", pyGetD origin "modality" (LogVal.s "text")),
        ("timestamp", LogVal.n now)]] }

/-- The `allowed_transitions` dictionary of `TraceManager.transition_trace`;
`none` models a state that is not a key of the dictionary. -/
def allowedTransitions : TraceState → Option (List TraceState)
  | TraceState.CREATED => some [TraceState.ACTIVE, TraceState.BLOCKED]
  | TraceState.ACTIVE => some [TraceState.BLOCKED, TraceState.COMPLETED]
  | TraceState.BLOCKED => some [TraceState.INVALID]
  | TraceState.COMPLETED => some [TraceState.ARCHIVED]
  | TraceState.INVALID => none
  | TraceState.ARCHIVED => none

/-- The Python string name of a lifecycle state. -/
def TraceState.pyName : TraceState → String
  | TraceState.CREATED => "CREATED"
  | TraceState.ACTIVE => "ACTIVE"
  | TraceState.BLOCKED => "BLOCKED"
  | TraceState.COMPLETED => "COMPLETED"
  | TraceState.INVALID => "INVALID"
  | TraceState.ARCHIVED => "ARCHIVED"

/-- The `new_log_entry` dictionary built by `transition_trace` before the
`event_data` update. -/
def transitionLogEntry (trace : Trace) (new_state : TraceState)
    (reason : String) (now : ℚ) : PyDict :=
  [("event", LogVal.s ("TRACE_" ++ TraceState.pyName new_state)),
   ("trace_id", LogVal.s trace.trace_id),
   ("timestamp", LogVal.n now),
   ("reason", LogVal.s reason)]

/-- `TraceManager.transition_trace(trace, new_state, reason, event_data)`.
`now` models the `time.time()` calls; a raised `ValueError` is an
`Except.error`.  Note that `closed_at` is assigned unconditionally whenever
the target state is BLOCKED, COMPLETED or INVALID. -/
def transitionTrace (trace : Trace) (new_state : TraceState) (reason : String)
    (event_data : Option PyDict) (now : ℚ) : Except String Trace :=
  match allowedTransitions trace.state with
  | none => Except.error "Cannot transition from state"
  | some allowed =>
    if new_state ∈ allowed then
      let new_log_entry : PyDict :=
        match event_data with
        | some d => pyUpdate (transitionLogEntry trace new_state reason now) d
        | none => transitionLogEntry trace new_state reason now
      let closed_at : Option ℚ :=
        if new_state ∈ [TraceState.BLOCKED, TraceState.COMPLETED,
            TraceState.INVALID] then
          some now
        else
          trace.closed_at
      Except.ok
        { trace_id := trace.trace_id
          state := new_state
          created_at := trace.created_at
          closed_at := closed_at
          origin := trace.origin
          context := trace.context
          lifecycle_log := trace.lifecycle_log ++ [new_log_entry] }
    else
      Except.error "Invalid transition"

/-- `EnergeticState` of `runtime/main_loop.py` (PHASE 3 output, EPS-8). -/
structure EnergeticState : Type where
  I : ℚ
  P : ℚ
  S : ℚ
  H : ℚ
  A : ℚ
  S_a : ℚ
  E_mu : ℚ
  theta : ℚ
deriving DecidableEq, Repr

/-- `EnergeticState` of `gate/gatecore.py` (imported in the adapter as
`GateEnergeticState`). -/
structure GateEnergeticState : Type where
  I : ℚ
  P : ℚ
  S : ℚ
  H : ℚ
  A : ℚ
  S_a : ℚ
  E_mu : ℚ
  theta : ℚ
deriving DecidableEq, Repr

/-- The field-by-field conversion performed both by
`GateCoreAdapter.convert_eps`/`admit_with_trace` and by
`RuntimeLoop._phase_trajectory_admission`. -/
def convertEps (eps : EnergeticState) : GateEnergeticState :=
  { I := eps.I, P := eps.P, S := eps.S, H := eps.H,
    A := eps.A, S_a := eps.S_a, E_mu := eps.E_mu, theta := eps.theta }

/-- `GateCoreResult` (`gate/gatecore.py`): verdict string, reason, metrics
snapshot, optional trace id, timestamp. -/
structure GateCoreResult : Type where
  verdict : String
  reason : String
  metrics : List (String × ℚ)
  trace_id : Option String
  timestamp : ℚ
deriving DecidableEq, Repr

/-- The admission gate as called through `gatecore.admit(eps, trace_id,
E_mu_history)`: an external decision authority, modelled as a function of
exactly the arguments the callers pass. -/
abbrev GateFn : Type :=
  GateEnergeticState → Option String → Option (List ℚ) → GateCoreResult

/-- `GateCoreAdapter.admit_with_trace(eps, origin, context, E_mu_history)`:
create a trace (CREATED), call the gate with the trace id attached, then
transition the trace to BLOCKED (verdict BLOCK) or ACTIVE (any other verdict),
recording the gate metrics and verdict in the transition payload.  `freshId`
models the `uuid.uuid4()` inside `create_trace`; `nowCreate`/`nowTransition`
model the `time.time()` calls. -/
def admitWithTrace (gate : GateFn) (freshId : String)
    (nowCreate nowTransition : ℚ) (eps : EnergeticState)
    (origin context : PyDict) (E_mu_history : Option (List ℚ)) :
    Except String (Trace × GateCoreResult) :=
  let trace := createTrace freshId nowCreate origin context
  let gate_eps := convertEps eps
  let gate_result := gate gate_eps (some trace.trace_id) E_mu_history
  let event_data : PyDict :=
    [("gate_metrics", LogVal.metrics gate_result.metrics),
     ("verdict", LogVal.s gate_result.verdict)]
  if gate_result.verdict = "BLOCK" then
    (transitionTrace trace TraceState.BLOCKED gate_result.reason
        (some event_data) nowTransition).map (fun t => (t, gate_result))
  else
    (transitionTrace trace TraceState.ACTIVE
        ("GateCore " ++ gate_result.verdict)
        (some event_data) nowTransition).map (fun t => (t, gate_result))

/-- The trajectory dictionary returned by
`RuntimeLoop._phase_trajectory_admission` on the non-blocked path
(`trace_id`, `eps`, `verdict`, `gate_result`, optional `metrics`, `trace`). -/
structure TrajectoryRec : Type where
  trace_id : String
  eps : EnergeticState
  verdict : String
  gate_result : Option GateCoreResult
  metrics : Option (List (String × ℚ))
  trace : Option Trace
deriving DecidableEq, Repr

/-- Python `gate_result.trace_id or fallback`: an empty string is falsy, so
it also selects the fallback. -/
def strOrElse (a : Option String) (b : String) : String :=
  match a with
  | some v => if v = "" then b else v
  | none => b

/-- `RuntimeLoop._phase_trajectory_admission(eps, origin, context)`, with the
configured `gatecore` and the presence of a `trajectory_builder` as
parameters.  Returns `Except.ok none` for a BLOCK verdict (the cycle ends),
`Except.ok (some rec)` otherwise; a raised exception is `Except.error`.
`freshId` models the fresh `uuid.uuid4()` of the branch taken, and
`nowCreate`/`nowTransition` the `time.time()` calls. -/
def phaseTrajectoryAdmission (gatecore : Option GateFn) (hasBuilder : Bool)
    (freshId : String) (nowCreate nowTransition : ℚ) (eps : EnergeticState)
    (origin context : PyDict) : Except String (Option TrajectoryRec) :=
  match gatecore with
  | none =>
    -- Fallback: allow all (create minimal trajectory and trace)
    if hasBuilder then
      match transitionTrace (createTrace freshId nowCreate origin context)
          TraceState.ACTIVE "No GateCore" none nowTransition with
      | Except.error e => Except.error e
      | Except.ok trace =>
        Except.ok (some
          { trace_id := trace.trace_id
            eps := eps
            verdict := "ALLOW"
            gate_result := none
            metrics := none
            trace := some trace })
    else
      Except.ok (some
        { trace_id := freshId
          eps := eps
          verdict := "ALLOW"
          gate_result := none
          metrics := none
          trace := none })
  | some gate =>
    let gate_eps := convertEps eps
    let trace0 : Option Trace :=
      if hasBuilder then some (createTrace freshId nowCreate origin context)
      else none
    let gate_result := gate gate_eps (trace0.map (fun t => t.trace_id)) none
    let event_data : PyDict :=
      [("gate_metrics", LogVal.metrics gate_result.metrics),
       ("verdict", LogVal.s gate_result.verdict)]
    let traceStep : Except String (Option Trace) :=
      match trace0 with
      | none => Except.ok none
      | some t =>
        if gate_result.verdict = "BLOCK" then
          (transitionTrace t TraceState.BLOCKED gate_result.reason
              (some event_data) nowTransition).map some
        else
          (transitionTrace t TraceState.ACTIVE
              ("GateCore " ++ gate_result.verdict)
              (some event_data) nowTransition).map some
    match traceStep with
    | Except.error e => Except.error e
    | Except.ok trace =>
      if gate_result.verdict = "BLOCK" then
        Except.ok none
      else
        Except.ok (some
          { trace_id :=
              strOrElse gate_result.trace_id
                (match trace with
                 | some t => t.trace_id
                 | none => freshId)
            eps := eps
            verdict := gate_result.verdict
            gate_result := some gate_result
            metrics := some gate_result.metrics
            trace := trace })

/-- `EPS8State` of `runtime/wm_controller.py` (note the `F` field in place of
the runtime loop's `E_mu`). -/
structure EPS8State : Type where
  I : ℚ
  P : ℚ
  S : ℚ
  H : ℚ
  F : ℚ
  A : ℚ
  S_a : ℚ
  theta : ℚ
deriving DecidableEq, Repr

/-- `WMController._create_default_state()`. -/
def createDefaultState : EPS8State :=
  { I := 0, P := 0, S := 0, H := 0, F := 0, A := 0, S_a := 0, theta := 0 }

/-- The result dictionary of `GateCore.evaluate_safety`. -/
structure SafetyResult : Type where
  pass : Bool
  S : ℚ
  S_min : ℚ
  reason : String
deriving DecidableEq, Repr

/-- A configured `GateCore` as seen by `evaluate_safety`: only the decision
policy's parameter dictionary (`policy.get_params()`) is consulted. -/
structure GateCoreModel : Type where
  policy_params : List (String × ℚ)
deriving DecidableEq, Repr

/-- `GateCore.evaluate_safety(eps)` (`gate/gatecore.py`): the safety check
reads only `eps.S`, which is passed here directly; `S_min` defaults to 0.5
when absent from the policy parameters. -/
def evaluateSafety (g : GateCoreModel) (eps_S : ℚ) : SafetyResult :=
  let S_min := pyGetD g.policy_params "S_min" 0.5
  let safety_pass : Bool := eps_S ≥ S_min
  { pass := safety_pass
    S := eps_S
    S_min := S_min
    reason := if safety_pass then "Safety gate passed" else "S below S_min" }

/-- The `gate_status` dictionary of `WMController._gate_control` (keys
`entropy`, `safety`, `budget`). -/
structure GateStatus : Type where
  entropy : Bool
  safety : Bool
  budget : Bool
deriving DecidableEq, Repr

/-- `all(gate_status.values())`. -/
def GateStatus.allPass (g : GateStatus) : Bool :=
  g.entropy && g.safety && g.budget

/-- `WMController._gate_control(state)`: entropy gate (fails iff
`H > H_max`), safety gate (delegates to `gatecore.evaluate_safety` when a
gate is configured, else the local `S < S_min` check), budget gate
(placeholder, always passes). -/
def gateControl (gatecore : Option GateCoreModel) (H_max S_min : ℚ)
    (state : EPS8State) : GateStatus :=
  let entropy : Bool := !(state.H > H_max)
  let safety : Bool :=
    match gatecore with
    | some g => (evaluateSafety g state.S).pass
    | none => !(state.S < S_min)
  { entropy := entropy, safety := safety, budget := true }

/-- One configured memory field of `WMController._invoke_memory_resonance`:
`none` models a field stored as `None` (skipped); `some query` models an
object whose `query_resonance` is called on the current state, where a
`none` result models a missing method or a raised exception (both recorded
as score 0.0). -/
abbrev MemoryField : Type := Option (EPS8State → Option ℚ)

/-- `WMController._invoke_memory_resonance(state)`: query every configured
memory field; a field's failure contributes 0.0 instead of aborting. -/
def invokeMemoryResonance (memory_fields : List (String × MemoryField))
    (state : EPS8State) : List (String × ℚ) :=
  memory_fields.foldl
    (fun acc kv =>
      match kv.2 with
      | none => acc
      | some query =>
        match query state with
        | some score => pySet acc kv.1 score
        | none => pySet acc kv.1 0)
    []

/-- `WMController._context_modulation(state, resonance_scores)`: a single
mutable `modulation_factor` is set to 1.1 by the episodic branch and then
overwritten with 1.05 by the semantic branch; `S` is scaled and clamped via
`min(..., 1.0)`. -/
def contextModulation (state : EPS8State)
    (resonance_scores : List (String × ℚ)) : EPS8State :=
  let modulation_factor : ℚ := 1.0
  let episodic_resonance := pyGetD resonance_scores "episodic" 0.0
  let modulation_factor : ℚ :=
    if episodic_resonance > 0.7 then 1.1 else modulation_factor
  let semantic_resonance := pyGetD resonance_scores "semantic" 0.0
  let modulation_factor : ℚ :=
    if semantic_resonance > 0.8 then 1.05 else modulation_factor
  { I := state.I * modulation_factor
    P := state.P
    S := min (if semantic_resonance > 0.8 then state.S * 1.05 else state.S) 1.0
    H := state.H
    F := state.F
    A := state.A
    S_a := state.S_a
    theta := state.theta }

/-- `WMController._navigation_decision(state, resonance_scores,
modulated_eps8)`.  The `state` argument is received but never read, as in the
source. -/
def navigationDecision (state : EPS8State)
    (resonance_scores : List (String × ℚ)) (modulated_eps8 : EPS8State) :
    String :=
  let episodic_resonance := pyGetD resonance_scores "episodic" 0.0
  if episodic_resonance > 0.7 then "EXTEND_PATH"
  else
    let semantic_resonance := pyGetD resonance_scores "semantic" 0.0
    if semantic_resonance > 0.8 then "RECALL_SN"
    else if modulated_eps8.I > 0.8 ∧ modulated_eps8.S > 0.7 then
      "TRIGGER_ACTION"
    else if modulated_eps8.H < 0.2 then "ACTIVATE_REFLEX"
    else "CREATE_NEW_SN"

/-- `Trajectory` of `runtime/wm_controller.py` (the output of
`_dict_to_trajectory`). -/
structure WMTrajectory : Type where
  states : List EPS8State
  trace_id : String
  source_modality : String
  timestamp : ℚ
deriving DecidableEq, Repr

/-- `WMControllerOutput` (`runtime/wm_controller.py`). -/
structure WMControllerOutput : Type where
  trajectory : WMTrajectory
  navigation_decision : String
  modulated_eps8 : EPS8State
  resonance_scores : List (String × ℚ)
  gate_status : GateStatus
  trace_id : String
  timestamp : ℚ
deriving DecidableEq, Repr

/-- `current_state = traj.states[-1] if traj.states else
self._create_default_state()` (first lines of `WMController.process`). -/
def wmCurrentState (traj : WMTrajectory) : EPS8State :=
  (traj.states.getLast?).getD createDefaultState

/-- `WMController.process(trajectory)` after `_dict_to_trajectory`
(conversion of the runtime-loop dictionary is taken as input).  `H_max` and
`S_min` are read from the configuration with the source defaults 0.62 and
0.5; `now` models `time.time()`. -/
def wmProcess (gatecore : Option GateCoreModel)
    (config : List (String × ℚ))
    (memory_fields : List (String × MemoryField))
    (traj : WMTrajectory) (now : ℚ) : WMControllerOutput :=
  let H_max := pyGetD config "H_max" 0.62
  let S_min := pyGetD config "S_min" 0.5
  let current_state := wmCurrentState traj
  let gate_status := gateControl gatecore H_max S_min current_state
  if !gate_status.allPass then
    { trajectory := traj
      navigation_decision := "BLOCKED"
      modulated_eps8 := current_state
      resonance_scores := []
      gate_status := gate_status
      trace_id := traj.trace_id
      timestamp := now }
  else
    let resonance_scores := invokeMemoryResonance memory_fields current_state
    let modulated_eps8 := contextModulation current_state resonance_scores
    let nav := navigationDecision current_state resonance_scores modulated_eps8
    { trajectory := { traj with states := traj.states ++ [modulated_eps8] }
      navigation_decision := nav
      modulated_eps8 := modulated_eps8
      resonance_scores := resonance_scores
      gate_status := gate_status
      trace_id := traj.trace_id
      timestamp := now }

/-- The metrics consumed by the CORE-9 decision pipeline (the `CoreMetrics`
struct declared in `bridge/kernel_bridge.py`). -/
structure CoreMetrics : Type where
  E_mu : ℚ
  H : ℚ
  D : ℚ
  S : ℚ
  T : ℚ
  V : ℚ
deriving DecidableEq, Repr

/-- Modelled from the spec: the verdict computation of the external C++
kernel (`cogman_decision_gate` / `cogman_core9_evaluate`, reached through
`DecisionGate.decide` and `KernelBridge.decision_gate`) is not part of the
Python sources — only its ctypes declarations and callers are.  This follows
the spec's §4.1 verdict precedence: (1) rule failure or S == 0 → BLOCK;
(2) E_mu below the restrict ceiling → BLOCK; (3) H strictly above the
entropy threshold → REVIEW; (4) drift strictly above its threshold →
REVIEW; (5) variance above its ceiling → REVIEW; (6) negative trend with
E_mu in the caution band (inclusive low, exclusive high) → REVIEW;
(7) otherwise ALLOW. -/
def core9Verdict (rule_fail : Bool)
    (E_mu_restrict_max H_threshold D_traj_threshold V_max
      E_mu_caution_min E_mu_caution_max : ℚ)
    (m : CoreMetrics) : String :=
  if rule_fail = true ∨ m.S = 0 then "BLOCK"
  else if m.E_mu < E_mu_restrict_max then "BLOCK"
  else if m.H > H_threshold then "REVIEW"
  else if m.D > D_traj_threshold then "REVIEW"
  else if m.V > V_max then "REVIEW"
  else if m.T < 0 ∧ E_mu_caution_min ≤ m.E_mu ∧ m.E_mu < E_mu_caution_max then
    "REVIEW"
  else "ALLOW"

/-- The runtime-loop `Phase` enumeration (`runtime/main_loop.py`). -/
inductive Phase : Type
  | IDLE
  | INPUT_INTAKE
  | SENSORY_ADAPTATION
  | PERCEPTION_BOUNDARY
  | TRAJECTORY_ADMISSION
  | WORKING_MEMORY_CONTROL
  | REASONING
  | DECISION
  | ACTION_OUTPUT
  | POST_PROCESSING
deriving DecidableEq, Repr

/-- `Phase.name` (the Python enum member name). -/
def Phase.name : Phase → String
  | Phase.IDLE => "IDLE"
  | Phase.INPUT_INTAKE => "INPUT_INTAKE"
  | Phase.SENSORY_ADAPTATION => "SENSORY_ADAPTATION"
  | Phase.PERCEPTION_BOUNDARY => "PERCEPTION_BOUNDARY"
  | Phase.TRAJECTORY_ADMISSION => "TRAJECTORY_ADMISSION"
  | Phase.WORKING_MEMORY_CONTROL => "WORKING_MEMORY_CONTROL"
  | Phase.REASONING => "REASONING"
  | Phase.DECISION => "DECISION"
  | Phase.ACTION_OUTPUT => "ACTION_OUTPUT"
  | Phase.POST_PROCESSING => "POST_PROCESSING"

/-- A raised Python exception as seen by the error handler:
`type(error).__name__` and `str(error)`. -/
structure PyErr : Type where
  error_type : String
  error_message : String
deriving DecidableEq, Repr

/-- `RawInputEnvelope` (`runtime/main_loop.py`). -/
structure RawInputEnvelope : Type where
  raw_input : String
  request_id : String
  timestamp : ℚ
  source_id : String
deriving DecidableEq, Repr

/-- `OriginPack` (`runtime/main_loop.py`). -/
structure OriginPack : Type where
  raw_signal : String
  modality : String
  timestamp : ℚ
  source_id : String
deriving DecidableEq, Repr

/-- `ActionOutput` (`runtime/main_loop.py`). -/
structure ActionOutputRec : Type where
  action_type : String
  output_data : String
  trace_id : String
  timestamp : ℚ
deriving DecidableEq, Repr

/-- The ten `RuntimeLoop._phase_*` handlers invoked by `_execute_cycle`,
modelled as functions with the source signatures.  Each handler may raise
(`Except.error`); the opaque payloads of the reasoning/decision stages are
the type parameters `α`, `β`, `γ` (dictionaries the sequencer passes through
without interpretation).  The tests drive the loop by replacing exactly
these methods. -/
structure PhaseHandlers (α β γ : Type) : Type where
  idle : Except PyErr (Option String)
  inputIntake : String → Except PyErr RawInputEnvelope
  sensoryAdaptation : RawInputEnvelope → Except PyErr OriginPack
  perceptionBoundary : OriginPack → Except PyErr EnergeticState
  trajectoryAdmission :
    EnergeticState → PyDict → PyDict → Except PyErr (Option TrajectoryRec)
  workingMemoryControl : TrajectoryRec → Except PyErr α
  reasoning : α → Except PyErr β
  decision : β → Except PyErr γ
  actionOutput : γ → TrajectoryRec → β → Except PyErr ActionOutputRec
  postProcessing : TrajectoryRec → ActionOutputRec → String → Except PyErr Unit

/-- `RuntimeLoop._execute_cycle()`: the canonical phase order with the two
early returns (no input at IDLE; a BLOCK verdict at TRAJECTORY_ADMISSION).
Returns the value of `self.current_phase` after the cycle together with the
cycle's outcome; an exception raised by any phase handler propagates as
`Except.error`, to be caught by `run()`. -/
def executeCycle {α β γ : Type} (ph : PhaseHandlers α β γ) :
    Phase × Except PyErr Unit :=
  match ph.idle with
  | Except.error e => (Phase.IDLE, Except.error e)
  | Except.ok none => (Phase.IDLE, Except.ok ())
  | Except.ok (some input_data) =>
    match ph.inputIntake input_data with
    | Except.error e => (Phase.INPUT_INTAKE, Except.error e)
    | Except.ok raw_input =>
      match ph.sensoryAdaptation raw_input with
      | Except.error e => (Phase.SENSORY_ADAPTATION, Except.error e)
      | Except.ok origin =>
        match ph.perceptionBoundary origin with
        | Except.error e => (Phase.PERCEPTION_BOUNDARY, Except.error e)
        | Except.ok eps =>
          let origin_info : PyDict :=
            [("source_id", LogVal.s raw_input.source_id),
             ("modality", LogVal.s origin.modality),
             ("adapter", LogVal.s "sensory")]
          let context_info : PyDict :=
            [("gate_profile", LogVal.s "default"),
             ("runtime_mode", LogVal.s "normal")]
          match ph.trajectoryAdmission eps origin_info context_info with
          | Except.error e => (Phase.TRAJECTORY_ADMISSION, Except.error e)
          | Except.ok none => (Phase.TRAJECTORY_ADMISSION, Except.ok ())
          | Except.ok (some trajectory) =>
            match ph.workingMemoryControl trajectory with
            | Except.error e => (Phase.WORKING_MEMORY_CONTROL, Except.error e)
            | Except.ok wm_output =>
              match ph.reasoning wm_output with
              | Except.error e => (Phase.REASONING, Except.error e)
              | Except.ok reasoning_output =>
                match ph.decision reasoning_output with
                | Except.error e => (Phase.DECISION, Except.error e)
                | Except.ok decision =>
                  match ph.actionOutput decision trajectory reasoning_output with
                  | Except.error e => (Phase.ACTION_OUTPUT, Except.error e)
                  | Except.ok action_output =>
                    match ph.postProcessing trajectory action_output
                        trajectory.verdict with
                    | Except.error e => (Phase.POST_PROCESSING, Except.error e)
                    | Except.ok _ => (Phase.POST_PROCESSING, Except.ok ())

/-- One record of `RuntimeErrorHandler.error_history`
(`runtime/error_handler.py`); the environment-dependent `traceback` string is
not modelled. -/
structure ErrorInfo : Type where
  phase : String
  error_type : String
  error_message : String
  severity : String
  context_system_state : String
  timestamp : ℚ
deriving DecidableEq, Repr

/-- The dictionary returned by `RuntimeErrorHandler.handle_error`. -/
structure HandleResult : Type where
  handled : Bool
  phase : String
  error_type : String
  action : String
  continue_flag : Bool
deriving DecidableEq, Repr

/-- The mutable state of `RuntimeErrorHandler`. -/
structure ErrorHandlerState : Type where
  error_count : Nat
  error_history : List ErrorInfo
deriving DecidableEq, Repr

/-- `RuntimeErrorHandler.handle_error(phase, error, context, severity)`:
increments the counter, appends the record, and returns the
`abort_cycle`/`continue` result.  This function is total — the handler never
raises. -/
def handleError (eh : ErrorHandlerState) (phase : String) (error : PyErr)
    (context_system_state : String) (severity : String) (now : ℚ) :
    ErrorHandlerState × HandleResult :=
  let record : ErrorInfo :=
    { phase := phase
      error_type := error.error_type
      error_message := error.error_message
      severity := severity
      context_system_state := context_system_state
      timestamp := now }
  ({ error_count := eh.error_count + 1
     error_history := eh.error_history ++ [record] },
   { handled := true
     phase := phase
     error_type := error.error_type
     action := "abort_cycle"
     continue_flag := true })

/-- The loop-visible attributes of `RuntimeLoop`. -/
structure RuntimeLoopState : Type where
  running : Bool
  current_phase : Phase
  system_state : String
deriving DecidableEq, Repr

/-- One iteration of the `while self.running` body of `RuntimeLoop.run()`:
`try: self._execute_cycle() except Exception as e: error_handler.handle_error
(phase=self.current_phase.name, error=e, context={"system_state": ...},
severity=HIGH); continue`.  Total by construction — no exception escapes the
iteration. -/
def runIterate {α β γ : Type} (ph : PhaseHandlers α β γ)
    (st : RuntimeLoopState) (eh : ErrorHandlerState) (now : ℚ) :
    RuntimeLoopState × ErrorHandlerState :=
  match executeCycle ph with
  | (p, Except.ok _) => ({ st with current_phase := p }, eh)
  | (p, Except.error e) =>
    ({ st with current_phase := p },
     (handleError eh (Phase.name p) e st.system_state "high" now).1)

/-! Concrete inputs used by counterexamples and witnesses. -/

/-- A state with intensity 1 (so the applied intensity factor is visible
directly in the output). -/
def c2State : EPS8State :=
  { I := 1, P := 0.6, S := 0.5, H := 0.3, F := 0, A := 0.5, S_a := 0.4,
    theta := 1.2 }

/-- A resonance score set with strong episodic (0.8 > 0.7) and strong
semantic (0.9 > 0.8) resonance at the same time. -/
def c2Scores : List (String × ℚ) := [("episodic", 0.8), ("semantic", 0.9)]

/-- A trace driven CREATED → BLOCKED at time 1. -/
def c3Blocked : Except String Trace :=
  transitionTrace (createTrace "trace-0" 0 [] []) TraceState.BLOCKED
    "gate BLOCK" none 1

/-- The trace of `c3Blocked` driven further BLOCKED → INVALID at time 2. -/
def c3BlockedThenInvalid : Except String Trace :=
  c3Blocked.bind
    (fun b => transitionTrace b TraceState.INVALID "invalidated" none 2)

/-- A trace driven CREATED → BLOCKED at time 1, used to exercise the amended
closure rule at a concrete input. -/
def c3WitnessStep : Except String Trace :=
  transitionTrace (createTrace "w" 0 [] []) TraceState.BLOCKED "r" none 1

/-- An `event_data` payload whose keys collide with all four core fields of
a lifecycle-log entry. -/
def c10Payload : PyDict :=
  [("event", LogVal.s "FAKE_EVENT"),
   ("timestamp", LogVal.n 99),
   ("reason", LogVal.s "forged reason"),
   ("trace_id", LogVal.s "someone-else")]

/-- A CREATED → ACTIVE transition at time 5 carrying `c10Payload`. -/
def c10Result : Except String Trace :=
  transitionTrace (createTrace "audited" 0 [] []) TraceState.ACTIVE
    "real reason" (some c10Payload) 5

/-- A constant gate used to exercise the adapter at a concrete input. -/
def c5Gate : GateFn := fun _ tid _ =>
  { verdict := "BLOCK"
    reason := "Safety rule failed (S == 0)"
    metrics := [("H", 0.3), ("S", 0)]
    trace_id := tid
    timestamp := 3 }

/-- Phase handlers whose IDLE handler raises, used to exercise error
containment at a concrete input. -/
def c9Handlers : PhaseHandlers Unit Unit Unit :=
  { idle := Except.error { error_type := "RuntimeError",
                           error_message := "boom" }
    inputIntake := fun s =>
      Except.ok { raw_input := s, request_id := "rq", timestamp := 0,
                  source_id := "external" }
    sensoryAdaptation := fun r =>
      Except.ok { raw_signal := r.raw_input, modality := "text",
                  timestamp := r.timestamp, source_id := r.source_id }
    perceptionBoundary := fun _ =>
      Except.ok { I := 0, P := 0, S := 0, H := 0, A := 0, S_a := 0,
                  E_mu := 0, theta := 0 }
    trajectoryAdmission := fun _ _ _ => Except.ok none
    workingMemoryControl := fun _ => Except.ok ()
    reasoning := fun _ => Except.ok ()
    decision := fun _ => Except.ok ()
    actionOutput := fun _ t _ =>
      Except.ok { action_type := "none", output_data := "",
                  trace_id := t.trace_id, timestamp := 0 }
    postProcessing := fun _ _ _ => Except.ok () }

/-! Theorems. -/

/-- Characterization of a successful `transitionTrace`: the new trace keeps
identity, creation time, origin and context, takes the target state, closes
per the target state, and appends exactly one log entry. -/
theorem transitionTrace_ok_spec (trace : Trace) (new_state : TraceState)
    (reason : String) (event_data : Option PyDict) (now : ℚ) (t : Trace)
    (h : transitionTrace trace new_state reason event_data now =
      Except.ok t) :
    t.trace_id = trace.trace_id ∧ t.state = new_state ∧
      t.created_at = trace.created_at ∧
      t.closed_at = (if new_state ∈ [TraceState.BLOCKED,
          TraceState.COMPLETED, TraceState.INVALID] then some now
        else trace.closed_at) ∧
      t.origin = trace.origin ∧ t.context = trace.context ∧
      t.lifecycle_log = trace.lifecycle_log ++
        [(match event_data with
          | some d =>
            pyUpdate (transitionLogEntry trace new_state reason now) d
          | none => transitionLogEntry trace new_state reason now)] := by
  unfold transitionTrace at h
  cases hA : allowedTransitions trace.state with
  | none => rw [hA] at h; exact absurd h (by simp)
  | some allowed =>
    rw [hA] at h
    by_cases hm : new_state ∈ allowed
    · simp only [if_pos hm, Except.ok.injEq] at h
      subst h
      exact ⟨rfl, rfl, rfl, rfl, rfl, rfl, rfl⟩
    · simp [if_neg hm] at h

/-- C4: a requested target state that is not an allowed edge from the
trace's current state (CREATED→{ACTIVE, BLOCKED}, ACTIVE→{BLOCKED,
COMPLETED}, BLOCKED→{INVALID}, COMPLETED→{ARCHIVED}) makes
`transition_trace` fail with an invalid-transition error; no new trace is
produced and the input trace — immutable in the embedding, `frozen` in the
source — is untouched. -/
theorem c4_invalid_transition_fails (trace : Trace) (new_state : TraceState)
    (reason : String) (event_data : Option PyDict) (now : ℚ)
    (h : new_state ∉ (allowedTransitions trace.state).getD []) :
    transitionTrace trace new_state reason event_data now =
        Except.error "Cannot transition from state" ∨
      transitionTrace trace new_state reason event_data now =
        Except.error "Invalid transition" := by
  unfold transitionTrace
  cases hA : allowedTransitions trace.state with
  | none => exact Or.inl rfl
  | some allowed =>
    rw [hA] at h
    simp only [Option.getD_some] at h
    simp [h]

/-- Closed instance of `c4_invalid_transition_fails`: CREATED cannot go
directly to COMPLETED. -/
theorem c4_invalid_transition_fails_witness :
    TraceState.COMPLETED ∉
        (allowedTransitions (createTrace "t" 0 [] []).state).getD [] ∧
      (transitionTrace (createTrace "t" 0 [] []) TraceState.COMPLETED "r"
            none 1 = Except.error "Cannot transition from state" ∨
        transitionTrace (createTrace "t" 0 [] []) TraceState.COMPLETED "r"
            none 1 = Except.error "Invalid transition") :=
  ⟨by decide,
   c4_invalid_transition_fails (createTrace "t" 0 [] []) TraceState.COMPLETED
     "r" none 1 (by decide)⟩

/-- C3 counterexample: the closure timestamp is not set exactly once — the
BLOCKED → INVALID edge overwrites it.  A trace blocked at time 1 has
`closed_at = 1`; invalidating it at time 2 rewrites `closed_at` to 2. -/
theorem c3_closed_at_counterexample :
    c3Blocked.map Trace.closed_at = Except.ok (some 1) ∧
      c3BlockedThenInvalid.map Trace.closed_at = Except.ok (some 2) ∧
      (some (2 : ℚ)) ≠ (some (1 : ℚ)) := by
  refine ⟨rfl, rfl, by norm_num⟩

/-- C3 (amended): on every successful transition, `closed_at` is assigned
the current time whenever the target state is BLOCKED, COMPLETED or INVALID
— even when it was already set, so the BLOCKED → INVALID edge overwrites it
— and is preserved on transitions into ACTIVE and ARCHIVED. -/
theorem c3_closed_at_amended (trace : Trace) (new_state : TraceState)
    (reason : String) (event_data : Option PyDict) (now : ℚ) (t : Trace)
    (h : transitionTrace trace new_state reason event_data now =
      Except.ok t) :
    (new_state ∈ [TraceState.BLOCKED, TraceState.COMPLETED,
        TraceState.INVALID] → t.closed_at = some now) ∧
      (new_state ∉ [TraceState.BLOCKED, TraceState.COMPLETED,
        TraceState.INVALID] → t.closed_at = trace.closed_at) := by
  unfold transitionTrace at h
  cases hA : allowedTransitions trace.state with
  | none => rw [hA] at h; exact absurd h (by simp)
  | some allowed =>
    rw [hA] at h
    by_cases hm : new_state ∈ allowed
    · simp only [if_pos hm, Except.ok.injEq] at h
      subst h
      constructor
      · intro hc; simp [hc]
      · intro hc; simp [hc]
    · simp [if_neg hm] at h

/-- Closed instance of `c3_closed_at_amended`: blocking a fresh trace at
time 1 sets `closed_at = 1`. -/
theorem c3_closed_at_amended_witness :
    c3WitnessStep.map Trace.closed_at = Except.ok (some 1) := by
  obtain ⟨t, ht⟩ : ∃ t, c3WitnessStep = Except.ok t := ⟨_, rfl⟩
  have hc := c3_closed_at_amended (createTrace "w" 0 [] [])
    TraceState.BLOCKED "r" none 1 t ht
  rw [ht, Except.map]
  rw [hc.1 (by decide)]

/-- C10: an `event_data` payload containing the keys `event`, `timestamp`,
`reason` or `trace_id` silently overwrites the corresponding core fields of
the appended lifecycle-log entry: with `c10Payload`, the recorded entry
carries the forged event name, timestamp, reason and trace id instead of
the transition's own values. -/
theorem c10_payload_overwrites_log_fields :
    c10Result.map (fun t => t.lifecycle_log.getLast?) =
        Except.ok (some
          [("event", LogVal.s "FAKE_EVENT"),
           ("trace_id", LogVal.s "someone-else"),
           ("timestamp", LogVal.n 99),
           ("reason", LogVal.s "forged reason")]) ∧
      "FAKE_EVENT" ≠ "TRACE_ACTIVE" ∧
      "someone-else" ≠ "audited" ∧
      (99 : ℚ) ≠ 5 ∧
      "forged reason" ≠ "real reason" := by
  refine ⟨rfl, by decide, by decide, by norm_num, by decide⟩

/-- C5: `admit_with_trace` creates a trace in state CREATED, calls the gate
with that trace's id attached, and returns the trace transitioned to
BLOCKED on verdict BLOCK and to ACTIVE on verdict ALLOW or REVIEW, with the
gate's metrics and verdict recorded in the transition's event payload in
both branches. -/
theorem c5_admit_with_trace (gate : GateFn) (freshId : String)
    (nowCreate nowTransition : ℚ) (eps : EnergeticState)
    (origin context : PyDict) (E_mu_history : Option (List ℚ))
    (r : GateCoreResult)
    (hr : gate (convertEps eps)
        (some (createTrace freshId nowCreate origin context).trace_id)
        E_mu_history = r) :
    (createTrace freshId nowCreate origin context).state =
        TraceState.CREATED ∧
      ∃ t, admitWithTrace gate freshId nowCreate nowTransition eps origin
            context E_mu_history = Except.ok (t, r) ∧
        (r.verdict = "BLOCK" → t.state = TraceState.BLOCKED) ∧
        (r.verdict = "ALLOW" ∨ r.verdict = "REVIEW" →
          t.state = TraceState.ACTIVE) ∧
        pyGet? ((t.lifecycle_log.getLast?).getD []) "verdict" =
          some (LogVal.s r.verdict) ∧
        pyGet? ((t.lifecycle_log.getLast?).getD []) "gate_metrics" =
          some (LogVal.metrics r.metrics) := by
  refine ⟨rfl, ?_⟩
  simp only [admitWithTrace]
  rw [hr]
  by_cases hb : r.verdict = "BLOCK"
  · simp only [if_pos hb]
    obtain ⟨t, ht⟩ : ∃ t,
        transitionTrace (createTrace freshId nowCreate origin context)
          TraceState.BLOCKED r.reason
          (some [("gate_metrics", LogVal.metrics r.metrics),
                 ("verdict", LogVal.s r.verdict)]) nowTransition =
          Except.ok t := ⟨_, rfl⟩
    obtain ⟨-, hstate, -, -, -, -, hlog⟩ :=
      transitionTrace_ok_spec _ _ _ _ _ _ ht
    refine ⟨t, ?_, fun _ => hstate, ?_, ?_, ?_⟩
    · rw [ht]; rfl
    · intro hav
      rcases hav with hav | hav <;> rw [hav] at hb <;>
        exact absurd hb (by decide)
    · rw [hlog, List.getLast?_concat]
      simp [transitionLogEntry, TraceState.pyName, pyUpdate, pySet,
        pyHasKey, pyGet?]
    · rw [hlog, List.getLast?_concat]
      simp [transitionLogEntry, TraceState.pyName, pyUpdate, pySet,
        pyHasKey, pyGet?]
  · simp only [if_neg hb]
    obtain ⟨t, ht⟩ : ∃ t,
        transitionTrace (createTrace freshId nowCreate origin context)
          TraceState.ACTIVE ("GateCore " ++ r.verdict)
          (some [("gate_metrics", LogVal.metrics r.metrics),
                 ("verdict", LogVal.s r.verdict)]) nowTransition =
          Except.ok t := ⟨_, rfl⟩
    obtain ⟨-, hstate, -, -, -, -, hlog⟩ :=
      transitionTrace_ok_spec _ _ _ _ _ _ ht
    refine ⟨t, ?_, ?_, fun _ => hstate, ?_, ?_⟩
    · rw [ht]; rfl
    · intro hB; exact absurd hB hb
    · rw [hlog, List.getLast?_concat]
      simp [transitionLogEntry, TraceState.pyName, pyUpdate, pySet,
        pyHasKey, pyGet?]
    · rw [hlog, List.getLast?_concat]
      simp [transitionLogEntry, TraceState.pyName, pyUpdate, pySet,
        pyHasKey, pyGet?]

/-- Closed instance of `c5_admit_with_trace` at a blocking gate. -/
theorem c5_admit_with_trace_witness :
    (createTrace "w5" 0 [] []).state = TraceState.CREATED ∧
      ∃ t, admitWithTrace c5Gate "w5" 0 1
            { I := 0.7, P := 0.6, S := 0, H := 0.3, A := 0.5, S_a := 0.4,
              E_mu := 50, theta := 1.2 } [] [] none =
          Except.ok (t,
            { verdict := "BLOCK"
              reason := "Safety rule failed (S == 0)"
              metrics := [("H", 0.3), ("S", 0)]
              trace_id := some "w5"
              timestamp := 3 }) ∧
        (GateCoreResult.verdict
            { verdict := "BLOCK"
              reason := "Safety rule failed (S == 0)"
              metrics := [("H", 0.3), ("S", 0)]
              trace_id := some "w5"
              timestamp := 3 } = "BLOCK" → t.state = TraceState.BLOCKED) ∧
        (GateCoreResult.verdict
            { verdict := "BLOCK"
              reason := "Safety rule failed (S == 0)"
              metrics := [("H", 0.3), ("S", 0)]
              trace_id := some "w5"
              timestamp := 3 } = "ALLOW" ∨
          GateCoreResult.verdict
            { verdict := "BLOCK"
              reason := "Safety rule failed (S == 0)"
              metrics := [("H", 0.3), ("S", 0)]
              trace_id := some "w5"
              timestamp := 3 } = "REVIEW" → t.state = TraceState.ACTIVE) ∧
        pyGet? ((t.lifecycle_log.getLast?).getD []) "verdict" =
          some (LogVal.s "BLOCK") ∧
        pyGet? ((t.lifecycle_log.getLast?).getD []) "gate_metrics" =
          some (LogVal.metrics [("H", 0.3), ("S", 0)]) :=
  c5_admit_with_trace c5Gate "w5" 0 1
    { I := 0.7, P := 0.6, S := 0, H := 0.3, A := 0.5, S_a := 0.4,
      E_mu := 50, theta := 1.2 } [] [] none
    { verdict := "BLOCK"
      reason := "Safety rule failed (S == 0)"
      metrics := [("H", 0.3), ("S", 0)]
      trace_id := some "w5"
      timestamp := 3 } rfl

/-- C1: with no admission gate configured (`gatecore is None`), the
trajectory-admission phase does not block: it returns a trajectory whose
verdict is ALLOW, and when a trajectory builder is present the freshly
created trace is transitioned to ACTIVE. -/
theorem c1_no_gatecore_allows (hasBuilder : Bool) (freshId : String)
    (nowCreate nowTransition : ℚ) (eps : EnergeticState)
    (origin context : PyDict) :
    ∃ rec, phaseTrajectoryAdmission none hasBuilder freshId nowCreate
          nowTransition eps origin context = Except.ok (some rec) ∧
      rec.verdict = "ALLOW" ∧
      (hasBuilder = true →
        ∃ t, rec.trace = some t ∧ t.state = TraceState.ACTIVE) := by
  cases hasBuilder with
  | false =>
    refine ⟨{ trace_id := freshId, eps := eps, verdict := "ALLOW",
              gate_result := none, metrics := none, trace := none },
      rfl, rfl, ?_⟩
    intro hfalse; exact absurd hfalse (by decide)
  | true =>
    obtain ⟨t, ht⟩ : ∃ t,
        transitionTrace (createTrace freshId nowCreate origin context)
          TraceState.ACTIVE "No GateCore" none nowTransition =
          Except.ok t := ⟨_, rfl⟩
    obtain ⟨-, hstate, -, -, -, -, -⟩ :=
      transitionTrace_ok_spec _ _ _ _ _ _ ht
    refine ⟨{ trace_id := t.trace_id, eps := eps, verdict := "ALLOW",
              gate_result := none, metrics := none, trace := some t },
      ?_, rfl, ?_⟩
    · simp [phaseTrajectoryAdmission, ht]
    · intro _
      exact ⟨t, rfl, hstate⟩

/-- C2 counterexample: with episodic resonance 0.8 (> 0.7) and semantic
resonance 0.9 (> 0.8) at once, intensity is scaled by 1.05, not by 1.10 —
the semantic branch overwrites the episodic bonus, so the episodic bonus is
not applied "regardless of semantic resonance". -/
theorem c2_modulation_counterexample :
    pyGetD c2Scores "episodic" 0.0 > 0.7 ∧
      (contextModulation c2State c2Scores).I = c2State.I * 1.05 ∧
      c2State.I * 1.05 ≠ c2State.I * 1.1 := by
  refine ⟨?_, ?_, ?_⟩
  · simp [c2Scores, pyGetD, pyGet?]; norm_num
  · simp [contextModulation, c2State, c2Scores, pyGetD, pyGet?]; norm_num
  · simp [c2State]; norm_num

/-- C2 (amended): the semantic bonus takes precedence over the episodic one
— intensity is scaled ×1.05 whenever semantic resonance > 0.8 (even when
episodic resonance > 0.7), ×1.10 when episodic resonance > 0.7 and semantic
resonance ≤ 0.8, and is unchanged otherwise, so at most one bonus applies;
stability is scaled ×1.05 and clamped to 1.0 exactly when semantic
resonance > 0.8 (otherwise it is passed through `min(S, 1.0)`, the identity
for S ≤ 1); all other fields pass through unchanged. -/
theorem c2_modulation_amended (state : EPS8State)
    (scores : List (String × ℚ)) :
    (pyGetD scores "semantic" 0.0 > 0.8 →
        (contextModulation state scores).I = state.I * 1.05) ∧
      (¬ pyGetD scores "semantic" 0.0 > 0.8 →
        pyGetD scores "episodic" 0.0 > 0.7 →
        (contextModulation state scores).I = state.I * 1.1) ∧
      (¬ pyGetD scores "semantic" 0.0 > 0.8 →
        ¬ pyGetD scores "episodic" 0.0 > 0.7 →
        (contextModulation state scores).I = state.I) ∧
      (pyGetD scores "semantic" 0.0 > 0.8 →
        (contextModulation state scores).S = min (state.S * 1.05) 1.0) ∧
      (¬ pyGetD scores "semantic" 0.0 > 0.8 →
        (contextModulation state scores).S = min state.S 1.0) ∧
      (¬ pyGetD scores "semantic" 0.0 > 0.8 → state.S ≤ 1 →
        (contextModulation state scores).S = state.S) ∧
      (contextModulation state scores).P = state.P ∧
      (contextModulation state scores).H = state.H ∧
      (contextModulation state scores).F = state.F ∧
      (contextModulation state scores).A = state.A ∧
      (contextModulation state scores).S_a = state.S_a ∧
      (contextModulation state scores).theta = state.theta := by
  refine ⟨?_, ?_, ?_, ?_, ?_, ?_, rfl, rfl, rfl, rfl, rfl, rfl⟩
  · intro hsem
    simp [contextModulation, if_pos hsem]
  · intro hsem hepi
    simp [contextModulation, if_neg hsem, if_pos hepi]
  · intro hsem hepi
    simp [contextModulation, if_neg hsem, if_neg hepi]
    norm_num
  · intro hsem
    simp [contextModulation, if_pos hsem]
  · intro hsem
    simp [contextModulation, if_neg hsem]
  · intro hsem hS
    have h1 : (1.0 : ℚ) = 1 := by norm_num
    simp [contextModulation, if_neg hsem, h1, min_eq_left hS]

/-- C7: in the router's three-part gate, the entropy gate passes iff
H ≤ H_max, the safety gate delegates to `evaluate_safety` when a gate is
configured and otherwise fails iff S < S_min, the budget gate always
passes; and whenever any gate fails, `process` returns decision BLOCKED
immediately with the unmodified current state and an empty resonance score
set. -/
theorem c7_gate_blocked (gatecore : Option GateCoreModel)
    (config : List (String × ℚ))
    (memory_fields : List (String × MemoryField))
    (traj : WMTrajectory) (now : ℚ) :
    ((gateControl gatecore (pyGetD config "H_max" 0.62)
          (pyGetD config "S_min" 0.5) (wmCurrentState traj)).entropy = true ↔
        (wmCurrentState traj).H ≤ pyGetD config "H_max" 0.62) ∧
      (gatecore = none →
        ((gateControl gatecore (pyGetD config "H_max" 0.62)
            (pyGetD config "S_min" 0.5) (wmCurrentState traj)).safety = true ↔
          ¬ (wmCurrentState traj).S < pyGetD config "S_min" 0.5)) ∧
      (∀ g, gatecore = some g →
        (gateControl gatecore (pyGetD config "H_max" 0.62)
            (pyGetD config "S_min" 0.5) (wmCurrentState traj)).safety =
          (evaluateSafety g (wmCurrentState traj).S).pass) ∧
      (gateControl gatecore (pyGetD config "H_max" 0.62)
          (pyGetD config "S_min" 0.5) (wmCurrentState traj)).budget = true ∧
      ((gateControl gatecore (pyGetD config "H_max" 0.62)
          (pyGetD config "S_min" 0.5) (wmCurrentState traj)).allPass = false →
        wmProcess gatecore config memory_fields traj now =
          { trajectory := traj
            navigation_decision := "BLOCKED"
            modulated_eps8 := wmCurrentState traj
            resonance_scores := []
            gate_status := gateControl gatecore (pyGetD config "H_max" 0.62)
              (pyGetD config "S_min" 0.5) (wmCurrentState traj)
            trace_id := traj.trace_id
            timestamp := now }) := by
  refine ⟨?_, ?_, ?_, ?_, ?_⟩
  · simp [gateControl, not_lt]
  · intro hg; subst hg
    simp [gateControl, not_lt]
  · intro g hg; subst hg
    simp [gateControl]
  · rfl
  · intro hfail
    simp only [wmProcess, hfail]
    rfl

/-- C8: the navigation decision follows the fixed precedence — episodic
resonance > 0.7 yields EXTEND_PATH; else semantic resonance > 0.8 yields
RECALL_SN; else modulated I > 0.8 and modulated S > 0.7 yields
TRIGGER_ACTION; else modulated H < 0.2 yields ACTIVATE_REFLEX; else
CREATE_NEW_SN — and no label outside this closed set is ever returned on
the non-blocked path. -/
theorem c8_navigation_precedence (state : EPS8State)
    (scores : List (String × ℚ)) (modulated : EPS8State) :
    (pyGetD scores "episodic" 0.0 > 0.7 →
        navigationDecision state scores modulated = "EXTEND_PATH") ∧
      (¬ pyGetD scores "episodic" 0.0 > 0.7 →
        pyGetD scores "semantic" 0.0 > 0.8 →
        navigationDecision state scores modulated = "RECALL_SN") ∧
      (¬ pyGetD scores "episodic" 0.0 > 0.7 →
        ¬ pyGetD scores "semantic" 0.0 > 0.8 →
        modulated.I > 0.8 → modulated.S > 0.7 →
        navigationDecision state scores modulated = "TRIGGER_ACTION") ∧
      (¬ pyGetD scores "episodic" 0.0 > 0.7 →
        ¬ pyGetD scores "semantic" 0.0 > 0.8 →
        ¬ (modulated.I > 0.8 ∧ modulated.S > 0.7) →
        modulated.H < 0.2 →
        navigationDecision state scores modulated = "ACTIVATE_REFLEX") ∧
      (¬ pyGetD scores "episodic" 0.0 > 0.7 →
        ¬ pyGetD scores "semantic" 0.0 > 0.8 →
        ¬ (modulated.I > 0.8 ∧ modulated.S > 0.7) →
        ¬ modulated.H < 0.2 →
        navigationDecision state scores modulated = "CREATE_NEW_SN") ∧
      navigationDecision state scores modulated ∈
        ["EXTEND_PATH", "RECALL_SN", "TRIGGER_ACTION", "ACTIVATE_REFLEX",
         "CREATE_NEW_SN"] := by
  refine ⟨?_, ?_, ?_, ?_, ?_, ?_⟩
  · intro hepi
    simp [navigationDecision, if_pos hepi]
  · intro hepi hsem
    simp [navigationDecision, if_neg hepi, if_pos hsem]
  · intro hepi hsem hI hS
    simp [navigationDecision, if_neg hepi, if_neg hsem, hI, hS]
  · intro hepi hsem hIS hH
    simp [navigationDecision, if_neg hepi, if_neg hsem, if_neg hIS,
      if_pos hH]
  · intro hepi hsem hIS hH
    simp [navigationDecision, if_neg hepi, if_neg hsem, if_neg hIS,
      if_neg hH]
  · by_cases h1 : pyGetD scores "episodic" 0.0 > 0.7
    · simp [navigationDecision, if_pos h1]
    · by_cases h2 : pyGetD scores "semantic" 0.0 > 0.8
      · simp [navigationDecision, if_neg h1, if_pos h2]
      · by_cases h3 : modulated.I > 0.8 ∧ modulated.S > 0.7
        · simp [navigationDecision, if_neg h1, if_neg h2, if_pos h3]
        · by_cases h4 : modulated.H < 0.2
          · simp [navigationDecision, if_neg h1, if_neg h2, if_neg h3,
              if_pos h4]
          · simp [navigationDecision, if_neg h1, if_neg h2, if_neg h3,
              if_neg h4]

/-- C6: with the rule-failure flag unset, S nonzero, E_mu not below the
restrict ceiling, and drift, variance and trend within bounds, entropy H
exactly equal to the configured threshold yields ALLOW while any H strictly
above it yields REVIEW — the entropy boundary is exclusive on the high
side. -/
theorem c6_entropy_boundary (E_mu_restrict_max H_threshold D_traj_threshold
      V_max E_mu_caution_min E_mu_caution_max : ℚ) (m : CoreMetrics)
    (hS : m.S ≠ 0) (hE : ¬ m.E_mu < E_mu_restrict_max)
    (hD : ¬ m.D > D_traj_threshold) (hV : ¬ m.V > V_max)
    (hT : ¬ (m.T < 0 ∧ E_mu_caution_min ≤ m.E_mu ∧
      m.E_mu < E_mu_caution_max)) :
    (m.H = H_threshold →
        core9Verdict false E_mu_restrict_max H_threshold D_traj_threshold
          V_max E_mu_caution_min E_mu_caution_max m = "ALLOW") ∧
      (m.H > H_threshold →
        core9Verdict false E_mu_restrict_max H_threshold D_traj_threshold
          V_max E_mu_caution_min E_mu_caution_max m = "REVIEW") := by
  constructor
  · intro hH
    simp [core9Verdict, hS, hE, hD, hV, hT, hH]
  · intro hH
    simp [core9Verdict, hS, hE, hD, hV, hT, hH]

/-- Closed instance of `c6_entropy_boundary` at the default thresholds
(restrict ceiling 15, H threshold 0.85, drift threshold 0.7, variance
ceiling 8, caution band [15, 30)): H = 0.85 is ALLOW and H = 0.86 is
REVIEW. -/
theorem c6_entropy_boundary_witness :
    core9Verdict false 15 0.85 0.7 8 15 30
        { E_mu := 50, H := 0.85, D := 0, S := 1, T := 0, V := 0 } =
      "ALLOW" ∧
    core9Verdict false 15 0.85 0.7 8 15 30
        { E_mu := 50, H := 0.86, D := 0, S := 1, T := 0, V := 0 } =
      "REVIEW" := by
  constructor
  · exact (c6_entropy_boundary 15 0.85 0.7 8 15 30
      { E_mu := 50, H := 0.85, D := 0, S := 1, T := 0, V := 0 }
      (by norm_num) (by norm_num) (by norm_num) (by norm_num)
      (by norm_num)).1 rfl
  · exact (c6_entropy_boundary 15 0.85 0.7 8 15 30
      { E_mu := 50, H := 0.86, D := 0, S := 1, T := 0, V := 0 }
      (by norm_num) (by norm_num) (by norm_num) (by norm_num)
      (by norm_num)).2 (by norm_num)

/-- C9: when a cycle fails at any phase — `executeCycle` set
`current_phase` to the faulting phase and returned the raised exception —
the loop body catches the exception, records it with the error handler
(severity HIGH, the current system state as context), abandons the cycle
and leaves the running flag true; `runIterate` is total, so the exception
never propagates out of `run()`. -/
theorem c9_error_containment {α β γ : Type} (ph : PhaseHandlers α β γ)
    (st : RuntimeLoopState) (eh : ErrorHandlerState) (now : ℚ) (p : Phase)
    (e : PyErr) (hrun : st.running = true)
    (hcycle : executeCycle ph = (p, Except.error e)) :
    (runIterate ph st eh now).1.running = true ∧
      (runIterate ph st eh now).2.error_count = eh.error_count + 1 ∧
      (runIterate ph st eh now).2.error_history = eh.error_history ++
        [{ phase := Phase.name p
           error_type := e.error_type
           error_message := e.error_message
           severity := "high"
           context_system_state := st.system_state
           timestamp := now }] := by
  unfold runIterate
  rw [hcycle]
  exact ⟨hrun, rfl, rfl⟩

/-- Closed instance of `c9_error_containment`: an IDLE handler raising
`RuntimeError("boom")` leaves the loop running and appends exactly one
error record. -/
theorem c9_error_containment_witness :
    (runIterate c9Handlers
        { running := true, current_phase := Phase.IDLE,
          system_state := "running" }
        { error_count := 0, error_history := [] } 0).1.running = true ∧
      (runIterate c9Handlers
          { running := true, current_phase := Phase.IDLE,
            system_state := "running" }
          { error_count := 0, error_history := [] } 0).2.error_count =
        0 + 1 ∧
      (runIterate c9Handlers
          { running := true, current_phase := Phase.IDLE,
            system_state := "running" }
          { error_count := 0, error_history := [] } 0).2.error_history =
        [] ++
          [{ phase := Phase.name Phase.IDLE
             error_type := "RuntimeError"
             error_message := "boom"
             severity := "high"
             context_system_state := "running"
             timestamp := 0 }] :=
  c9_error_containment c9Handlers
    { running := true, current_phase := Phase.IDLE,
      system_state := "running" }
    { error_count := 0, error_history := [] } 0 Phase.IDLE
    { error_type := "RuntimeError", error_message := "boom" } rfl rfl
